import Mathlib

/-!
Verification of pymogile src/pymogile/client.py (Client class).

The Python methods are embedded as pure Lean functions.  The tracker backend
and the HTTP file classes live outside src/, so a method that issues one
backend request takes that request response as an explicit oracle argument
(an Except value: the backend either returns a field mapping or raises), and
the requests a method issues are returned as an explicit trace.  File-handle
reads, writes and closes are likewise driven by oracle arguments and recorded
as events, so that claims about which requests are issued and which handles
get closed on which exit paths become statements about the produced traces.
-/

deriving instance DecidableEq for Except

namespace Pymogile

/-- Python scalar values as they occur in request parameter dictionaries of
client.py: strings, ints, and None. -/
inductive Val where
  | str (s : String)
  | int (n : Int)
  | pynone
  deriving DecidableEq

/-- Python truthiness for the scalar values we model: empty string, zero and
None are falsy. -/
def Val.truthy : Val → Bool
  | .str s => s ≠ ""
  | .int n => n ≠ 0
  | .pynone => false

/-- Python expression x and y (returns x when x is falsy, else y). -/
def Val.pyAnd (x y : Val) : Val := if x.truthy then y else x

/-- Python expression x or y (returns x when x is truthy, else y). -/
def Val.pyOr (x y : Val) : Val := if x.truthy then x else y

/-- The Python exceptions that can cross the boundaries of the client.py
methods.  trackerError and mogileError stand for MogileFSTrackerError and
MogileFSError from pymogile.exceptions (raised by Backend.do_request, which
is outside src/; modelled from the spec: connectivity-class and
application-class failures of the tracker backend). -/
inductive PyErr where
  | keyError (k : String)
  | indexError
  | valueError (msg : String)
  | attributeError
  | nameError (n : String)
  | trackerError
  | mogileError
  deriving DecidableEq

/-- A tracker success response: the decoded field mapping, as an association
list in field order. -/
abbrev FieldMap := List (String × String)

/-- Python dict access res[k]: KeyError when the key is missing. -/
def FieldMap.getE (res : FieldMap) (k : String) : Except PyErr String :=
  match res.lookup k with
  | some v => .ok v
  | none => .error (.keyError k)

/-- Decimal accumulation over a character list; none at the first non-digit. -/
def digitsVal : List Char → Nat → Option Nat
  | [], acc => some acc
  | c :: cs, acc =>
    if c.isDigit then digitsVal cs (acc * 10 + (c.toNat - 48)) else none

/-- A non-empty all-digit character list read as a natural number. -/
def parseNat : List Char → Option Nat
  | [] => none
  | cs => digitsVal cs 0

/-- Python int(s) applied to a tracker response field: an optional minus sign
followed by at least one decimal digit (the whitespace and sign niceties of
int() do not occur in tracker numeric fields); anything else raises
ValueError. -/
def pyInt (s : String) : Except PyErr Int :=
  match s.data with
  | '-' :: cs =>
    match parseNat cs with
    | some n => .ok (-(n : Int))
    | none => .error (.valueError s)
  | cs =>
    match parseNat cs with
    | some n => .ok (n : Int)
    | none => .error (.valueError s)

/-- Python xrange(1, n + 1): the indices 1..n, empty when n is not positive. -/
def pyRange1 (n : Int) : List Nat :=
  (List.range n.toNat).map (· + 1)

/-- One request handed to Backend.do_request: command name and the parameter
dictionary in insertion order. -/
structure Request where
  cmd : String
  params : List (String × Val)
  deriving DecidableEq

/-- Client state set by Client.__init__ (the Backend itself is outside src/
and is represented by the response oracles of the individual methods). -/
structure Client where
  domain : String
  readonly : Bool
  deriving DecidableEq

/-- client.py _complain_ifreadonly: raises ValueError on a read-only client. -/
def complain_ifreadonly (readonly : Bool) : Except PyErr Unit :=
  if readonly then .error (.valueError "operation on read-only client") else .ok ()

/-- Modelled from the spec: Client.run_hook is not part of src/client.py; the
design notes define lifecycle hooks as synchronously invoked registered
callbacks where absence of registrations is a no-op, not an error.  The
methods below therefore treat every run_hook call site as a no-op. -/
def run_hook (_hookname : String) : Unit := ()

/-- The constructor arguments new_file passes to NewHttpFile / ClientHttpFile
(both outside src/); largefile records which of the two classes was chosen. -/
structure WriteHandleArgs where
  fid : String
  path : String
  devid : String
  backup_dests : List (String × String)
  cls : Option String
  key : String
  content_length : Val
  largefile : Bool
  overwrite : Int
  deriving DecidableEq

/-- The constructor arguments read_file passes to ClientHttpFile. -/
structure ReadHandleArgs where
  path : String
  backup_dests : List (Option String × String)
  readonly : Int
  deriving DecidableEq

/-- The create_open parameter dictionary built in new_file (client.py lines
50-57): domain, key, fid=0, multi_dest=1, and class only when cls is not
None. -/
def create_open_params (c : Client) (key : String) (cls : Option String) :
    List (String × Val) :=
  [("domain", .str c.domain), ("key", .str key), ("fid", .int 0),
   ("multi_dest", .int 1)]
    ++ match cls with
       | some s => [("class", Val.str s)]
       | none => []

/-- The loop body of the dev_count branch of new_file: for each index x, look
up devid_x then path_x (a missing field raises KeyError at that point, as in
Python), collecting the (devid, path) pairs in index order. -/
def dest_pairs (res : FieldMap) : List Nat → Except PyErr (List (String × String))
  | [] => .ok []
  | x :: xs =>
    match res.getE ("devid_" ++ toString x) with
    | .error e => .error e
    | .ok d =>
      match res.getE ("path_" ++ toString x) with
      | .error e => .error e
      | .ok p =>
        match dest_pairs res xs with
        | .error e => .error e
        | .ok rest => .ok ((d, p) :: rest)

/-- Destination-plan parsing of new_file (client.py lines 62-71): when the
response has no dev_count field, the single legacy (devid, path) pair; when
dev_count is present, the pairs (devid_x, path_x) for x in
xrange(1, int(dev_count) + 1). -/
def parse_dests (res : FieldMap) : Except PyErr (List (String × String)) :=
  match res.lookup "dev_count" with
  | none =>
    match res.getE "devid" with
    | .error e => .error e
    | .ok d =>
      match res.getE "path" with
      | .error e => .error e
      | .ok p => .ok [(d, p)]
  | some dcs =>
    match pyInt dcs with
    | .error e => .error e
    | .ok dc => dest_pairs res (pyRange1 dc)

/-- Client.new_file (client.py lines 33-93).  Returns the create_open request
it issues together with its outcome: the backend exception, None when the
response is falsy (empty), IndexError when the parsed destination list is
empty (dests[0]), or the file-handle constructor arguments with the first
destination selected as primary and the whole plan as backup_dests.  run_hook
call sites are no-ops (see run_hook). -/
def Client.new_file (c : Client) (key : String) (cls : Option String)
    (bytes : Val) (largefile : Bool) (resp : Except PyErr FieldMap) :
    List Request × Except PyErr (Option WriteHandleArgs) :=
  ([⟨"create_open", create_open_params c key cls⟩],
   match resp with
   | .error e => .error e
   | .ok res =>
     if res = [] then .ok none
     else
       match parse_dests res with
       | .error e => .error e
       | .ok [] => .error .indexError
       | .ok ((main_devid, main_path) :: rest) =>
         match res.getE "fid" with
         | .error e => .error e
         | .ok fid =>
           .ok (some { fid := fid, path := main_path, devid := main_devid,
                       backup_dests := (main_devid, main_path) :: rest,
                       cls := cls, key := key, content_length := bytes,
                       largefile := largefile, overwrite := 1 }))

/-- The get_paths parameter dictionary (client.py lines 112-119): pathcount
defaults to 2 whenever the supplied value is falsy, and noverify is encoded
with the Python idiom noverify and 1 or 0. -/
def get_paths_params (c : Client) (key : String) (noverify : Val)
    (zone : String) (pathcount : Val) : List (String × Val) :=
  let pc := if pathcount.truthy then pathcount else Val.int 2
  [("domain", .str c.domain), ("key", .str key),
   ("noverify", (noverify.pyAnd (.int 1)).pyOr (.int 0)),
   ("zone", .str zone), ("pathcount", pc)]

/-- The list comprehension of get_paths: res[path1], ..., res[pathN] in index
order (a missing field raises KeyError, which the except clause does not
catch). -/
def path_list (res : FieldMap) : List Nat → Except PyErr (List String)
  | [] => .ok []
  | x :: xs =>
    match res.getE ("path" ++ toString x) with
    | .error e => .error e
    | .ok p =>
      match path_list res xs with
      | .error e => .error e
      | .ok rest => .ok (p :: rest)

/-- The try-block body of get_paths: the do_request outcome, then
int(res[paths]) many indexed path fields. -/
def get_paths_body (resp : Except PyErr FieldMap) : Except PyErr (List String) :=
  match resp with
  | .error e => .error e
  | .ok res =>
    match res.getE "paths" with
    | .error e => .error e
    | .ok ps =>
      match pyInt ps with
      | .error e => .error e
      | .ok n => path_list res (pyRange1 n)

/-- The except clause of get_paths catches exactly MogileFSTrackerError and
MogileFSError. -/
def caught_by_get_paths : PyErr → Bool
  | .trackerError => true
  | .mogileError => true
  | _ => false

/-- Client.get_paths (client.py lines 109-127): issues the get_paths request;
on a caught tracker exception the path list is empty, any other exception
propagates. -/
def Client.get_paths (c : Client) (key : String) (noverify : Val)
    (zone : String) (pathcount : Val) (resp : Except PyErr FieldMap) :
    List Request × Except PyErr (List String) :=
  ([⟨"get_paths", get_paths_params c key noverify zone pathcount⟩],
   match get_paths_body resp with
   | .ok l => .ok l
   | .error e => if caught_by_get_paths e then .ok [] else .error e)

/-- Client.read_file (client.py lines 95-107): calls get_paths, evaluates
paths[0] (IndexError on an empty list), and passes the remaining paths as
(None, path) backup destinations to ClientHttpFile with readonly=1. -/
def Client.read_file (c : Client) (key : String) (noverify : Val)
    (zone : String) (pathcount : Val) (resp : Except PyErr FieldMap) :
    List Request × Except PyErr ReadHandleArgs :=
  ((c.get_paths key noverify zone pathcount resp).1,
   match (c.get_paths key noverify zone pathcount resp).2 with
   | .error e => .error e
   | .ok [] => .error .indexError
   | .ok (p :: rest) =>
     .ok { path := p,
           backup_dests := rest.map (fun q => ((none : Option String), q)),
           readonly := 1 })

/-- Client.rename (client.py lines 141-150): read-only check, then the rename
request; a backend exception propagates, otherwise True. -/
def Client.rename (c : Client) (old_key new_key : String)
    (resp : Except PyErr FieldMap) : List Request × Except PyErr Bool :=
  match complain_ifreadonly c.readonly with
  | .error e => ([], .error e)
  | .ok _ =>
    ([⟨"rename", [("domain", .str c.domain), ("from_key", .str old_key),
                  ("to_key", .str new_key)]⟩],
     match resp with
     | .error e => .error e
     | .ok _ => .ok true)

/-- Client.delete (client.py lines 260-264): read-only check, then the delete
request; a backend exception propagates, otherwise True. -/
def Client.delete (c : Client) (key : String) (resp : Except PyErr FieldMap) :
    List Request × Except PyErr Bool :=
  match complain_ifreadonly c.readonly with
  | .error e => ([], .error e)
  | .ok _ =>
    ([⟨"delete", [("domain", .str c.domain), ("key", .str key)]⟩],
     match resp with
     | .error e => .error e
     | .ok _ => .ok true)

/-- Observable events of the streaming methods: a backend request, a read
from the caller-supplied input filehandle fp, a write to the write handle, a
close of fp, a close of the write handle carrying the discarded boolean that
close() returned, and a close of the read handle of get_file_data. -/
inductive Ev where
  | req (r : Request)
  | fpRead
  | outWrite
  | fpClose
  | outClose (ret : Bool)
  | readClose
  deriving DecidableEq

/-- Oracle for one store_file call: the create_open response, the successive
fp.read outcomes (chunk byte counts; an exhausted list means the next read
returns the empty string), the successive output.write outcomes (an exhausted
list means success), and the boolean that output.close() returns. -/
structure StoreOracle where
  resp : Except PyErr FieldMap
  reads : List (Except PyErr Nat)
  writes : List (Except PyErr Unit)
  closeRet : Bool

/-- The while loop of store_file (client.py lines 223-229): read a chunk,
stop on an empty chunk, add its length to bytes, write it out.  isHandle is
false when new_file returned None, in which case output.write raises
AttributeError.  Returns the events of the loop and its outcome (the
accumulated byte count, or the exception that left the loop). -/
def streamLoop (isHandle : Bool) :
    List (Except PyErr Nat) → List (Except PyErr Unit) → Nat →
    List Ev × Except PyErr Nat
  | [], _, acc => ([.fpRead], .ok acc)
  | .error e :: _, _, _ => ([.fpRead], .error e)
  | .ok 0 :: _, _, acc => ([.fpRead], .ok acc)
  | .ok (m + 1) :: rs, ws, acc =>
    if isHandle then
      match ws.headD (.ok ()) with
      | .error e => ([.fpRead, .outWrite], .error e)
      | .ok _ =>
        let rest := streamLoop isHandle rs ws.tail (acc + (m + 1))
        (.fpRead :: .outWrite :: rest.1, rest.2)
    else ([.fpRead], .error .attributeError)

/-- Client.store_file (client.py lines 209-237): read-only check first; then
new_file (largefile=1), the streaming loop, and a finally block that closes
fp and then calls output.close().  When new_file raised, output is an unbound
local, so the finally block closes fp and then raises NameError (replacing
the in-flight exception); when new_file returned None, output.close() raises
AttributeError the same way; when a handle was acquired, its close runs and
its boolean result is discarded. -/
def Client.store_file (c : Client) (key : String) (cls : Option String)
    (o : StoreOracle) : List Ev × Except PyErr Nat :=
  match complain_ifreadonly c.readonly with
  | .error e => ([], .error e)
  | .ok _ =>
    let nf := c.new_file key cls (.int 0) true o.resp
    let evs0 := nf.1.map Ev.req
    match nf.2 with
    | .error _ => (evs0 ++ [.fpClose], .error (.nameError "output"))
    | .ok none =>
      let sl := streamLoop false o.reads o.writes 0
      (evs0 ++ sl.1 ++ [.fpClose], .error .attributeError)
    | .ok (some _) =>
      let sl := streamLoop true o.reads o.writes 0
      (evs0 ++ sl.1 ++ [.fpClose, .outClose o.closeRet], sl.2)

/-- Oracle for one store_content call: the create_open response, the outcome
of the single output.write(content), and the boolean output.close() returns. -/
structure ContentOracle where
  resp : Except PyErr FieldMap
  writeRes : Except PyErr Unit
  closeRet : Bool

/-- Client.store_content (client.py lines 239-258): read-only check first;
new_file (bytes=None, largefile absent) outside any try, so its exception
propagates directly; then try: output.write(content) finally output.close().
When new_file returned None both the write and the close raise
AttributeError; otherwise the close boolean is discarded and len(content) is
returned whenever the write succeeded. -/
def Client.store_content (c : Client) (key : String) (content : String)
    (cls : Option String) (o : ContentOracle) : List Ev × Except PyErr Nat :=
  match complain_ifreadonly c.readonly with
  | .error e => ([], .error e)
  | .ok _ =>
    let nf := c.new_file key cls .pynone false o.resp
    let evs0 := nf.1.map Ev.req
    match nf.2 with
    | .error e => (evs0, .error e)
    | .ok none => (evs0, .error .attributeError)
    | .ok (some _) =>
      match o.writeRes with
      | .error e => (evs0 ++ [.outWrite, .outClose o.closeRet], .error e)
      | .ok _ => (evs0 ++ [.outWrite, .outClose o.closeRet], .ok content.length)

/-- Client.get_file_data (client.py lines 129-139): read_file(key, noverify=1)
with the remaining get_paths defaults; when read_file raised, the exception
propagates before any try block; otherwise try: fp.read() finally fp.close(),
so the read handle close is on both the success and the failed-read path, and
the read outcome (the data oracle) is the result either way. -/
def Client.get_file_data (c : Client) (key : String)
    (resp : Except PyErr FieldMap) (data : Except PyErr String) :
    List Ev × Except PyErr String :=
  let rf := c.read_file key (.int 1) "alt" .pynone resp
  let evs0 := rf.1.map Ev.req
  match rf.2 with
  | .error e => (evs0, .error e)
  | .ok _ => (evs0 ++ [.fpRead, .readClose], data)

/-! Helper lemmas shared by the claim theorems. -/

/-- A field map with a successful lookup is not the empty dictionary. -/
theorem lookup_ne_nil {res : FieldMap} {k v : String}
    (h : res.lookup k = some v) : res ≠ [] := by
  intro he
  subst he
  simp [List.lookup] at h

/-- For positive n, the index list 1..n starts with 1. -/
theorem pyRange1_pos (n : Int) (h : 1 ≤ n) :
    pyRange1 n = 1 :: (pyRange1 n).tail := by
  unfold pyRange1
  obtain ⟨m, hm⟩ : ∃ m, n.toNat = m + 1 := ⟨n.toNat - 1, by omega⟩
  rw [hm, List.range_succ_eq_map]
  rfl

/-- When every indexed devid and path field is present, the dev_count loop
collects exactly the indexed pairs, in index order. -/
theorem dest_pairs_ok (res : FieldMap) (devs paths : Nat → String)
    (xs : List Nat)
    (hdev : ∀ x ∈ xs, res.lookup ("devid_" ++ toString x) = some (devs x))
    (hpath : ∀ x ∈ xs, res.lookup ("path_" ++ toString x) = some (paths x)) :
    dest_pairs res xs = .ok (xs.map (fun x => (devs x, paths x))) := by
  induction xs with
  | nil => rfl
  | cons x xs ih =>
    have hdx := hdev x (List.mem_cons_self x xs)
    have hpx := hpath x (List.mem_cons_self x xs)
    have ihr := ih (fun y hy => hdev y (List.mem_cons_of_mem x hy))
      (fun y hy => hpath y (List.mem_cons_of_mem x hy))
    simp only [dest_pairs, FieldMap.getE, hdx, hpx, ihr, List.map_cons]

/-- When every indexed path field is present, the get_paths comprehension
collects exactly the indexed paths, in index order. -/
theorem path_list_ok (res : FieldMap) (pathF : Nat → String) (xs : List Nat)
    (hp : ∀ x ∈ xs, res.lookup ("path" ++ toString x) = some (pathF x)) :
    path_list res xs = .ok (xs.map pathF) := by
  induction xs with
  | nil => rfl
  | cons x xs ih =>
    have hpx := hp x (List.mem_cons_self x xs)
    have ihr := ih (fun y hy => hp y (List.mem_cons_of_mem x hy))
    simp only [path_list, FieldMap.getE, hpx, ihr, List.map_cons]

/-- new_file on a non-empty response whose destination plan parsed to a
non-empty list and whose fid field is present: the handle receives the head
pair as primary and the whole plan as backups. -/
theorem new_file_res_ok (c : Client) (key : String) (cls : Option String)
    (bytes : Val) (lf : Bool) (res : FieldMap) (d p fid : String)
    (tl : List (String × String)) (hres : res ≠ [])
    (hdests : parse_dests res = .ok ((d, p) :: tl))
    (hfid : res.lookup "fid" = some fid) :
    (c.new_file key cls bytes lf (.ok res)).2 =
      .ok (some { fid := fid, path := p, devid := d,
                  backup_dests := (d, p) :: tl, cls := cls, key := key,
                  content_length := bytes, largefile := lf, overwrite := 1 }) := by
  simp only [Client.new_file, FieldMap.getE, hdests, hfid, if_neg hres]

/-- get_paths on a successful response with a paths count field n and all
indexed path fields present yields the indexed paths in ascending order. -/
theorem get_paths_res_ok (c : Client) (key : String) (nv : Val) (zone : String)
    (pc : Val) (res : FieldMap) (ps : String) (n : Int) (pathF : Nat → String)
    (hps : res.lookup "paths" = some ps) (hn : pyInt ps = .ok n)
    (hp : ∀ x ∈ pyRange1 n, res.lookup ("path" ++ toString x) = some (pathF x)) :
    (c.get_paths key nv zone pc (.ok res)).2 = .ok ((pyRange1 n).map pathF) := by
  have hbody : get_paths_body (.ok res) = .ok ((pyRange1 n).map pathF) := by
    simp only [get_paths_body, FieldMap.getE, hps, hn,
      path_list_ok res pathF (pyRange1 n) hp]
  simp only [Client.get_paths, hbody]

/-! Claim theorems. -/

/-- Claim C1, code evaluated at the failing input: when the get_paths request
yields the empty path list (a tracker application error for the key, or a
response with paths=0), read_file raises IndexError from paths[0] instead of
yielding an empty result. -/
theorem read_file_empty_paths_raises_indexerror :
    (Client.get_paths ⟨"testdomain", false⟩ "missing" (.int 1) "alt" .pynone
        (.error .mogileError)).2 = .ok [] ∧
    (Client.read_file ⟨"testdomain", false⟩ "missing" (.int 1) "alt" .pynone
        (.error .mogileError)).2 = .error .indexError ∧
    (Client.get_paths ⟨"testdomain", false⟩ "missing" (.int 1) "alt" .pynone
        (.ok [("paths", "0")])).2 = .ok [] ∧
    (Client.read_file ⟨"testdomain", false⟩ "missing" (.int 1) "alt" .pynone
        (.ok [("paths", "0")])).2 = .error .indexError :=
  ⟨by decide, by decide, by decide, by decide⟩

/-- Claim C2: on a client constructed with readonly=True, store_file,
store_content, delete and rename all return the read-only ValueError with an
empty trace, so no backend request of any kind was issued. -/
theorem readonly_rejects_before_any_request (domain key okey nkey content : String)
    (cls cls2 : Option String) (so : StoreOracle) (co : ContentOracle)
    (resp resp2 : Except PyErr FieldMap) :
    Client.store_file ⟨domain, true⟩ key cls so
        = ([], .error (.valueError "operation on read-only client")) ∧
    Client.store_content ⟨domain, true⟩ key content cls2 co
        = ([], .error (.valueError "operation on read-only client")) ∧
    Client.delete ⟨domain, true⟩ key resp
        = ([], .error (.valueError "operation on read-only client")) ∧
    Client.rename ⟨domain, true⟩ okey nkey resp2
        = ([], .error (.valueError "operation on read-only client")) :=
  ⟨rfl, rfl, rfl, rfl⟩

/-- Claim C5: every new_file call issues exactly one create_open request
whose parameters are domain, key, fid=0, multi_dest=1, and class exactly when
a class argument was supplied. -/
theorem new_file_create_open_request (c : Client) (key s : String)
    (bytes : Val) (lf : Bool) (resp : Except PyErr FieldMap) :
    (c.new_file key (some s) bytes lf resp).1 =
      [⟨"create_open",
        [("domain", .str c.domain), ("key", .str key), ("fid", .int 0),
         ("multi_dest", .int 1), ("class", .str s)]⟩] ∧
    (c.new_file key none bytes lf resp).1 =
      [⟨"create_open",
        [("domain", .str c.domain), ("key", .str key), ("fid", .int 0),
         ("multi_dest", .int 1)]⟩] :=
  ⟨rfl, rfl⟩

/-- Claim C6, counterexample: calling get_paths with the falsy pathcount 0
sends pathcount=2, not the given pathcount, so the request does not carry
the pathcount that was supplied. -/
theorem get_paths_pathcount_zero_sends_two :
    (Client.get_paths ⟨"d", false⟩ "k" (.int 1) "alt" (.int 0)
        (.error .trackerError)).1 =
      [⟨"get_paths",
        [("domain", .str "d"), ("key", .str "k"), ("noverify", .int 1),
         ("zone", .str "alt"), ("pathcount", .int 2)]⟩] ∧
    Val.int 2 ≠ Val.int 0 :=
  ⟨by decide, by decide⟩

/-- Claim C6 as amended: the get_paths request carries domain, key, noverify
encoded as exactly 1 when the noverify argument is truthy and 0 otherwise,
zone, and pathcount equal to the given pathcount when that value is truthy
and 2 when it is unsupplied (None) or otherwise falsy. -/
theorem get_paths_request_params (c : Client) (key : String) (nv : Val)
    (zone : String) (pc : Val) (resp : Except PyErr FieldMap) :
    (c.get_paths key nv zone pc resp).1 =
      [⟨"get_paths",
        [("domain", .str c.domain), ("key", .str key),
         ("noverify", .int (if nv.truthy then 1 else 0)),
         ("zone", .str zone),
         ("pathcount", if pc.truthy then pc else .int 2)]⟩] := by
  have hnv : (nv.pyAnd (.int 1)).pyOr (.int 0)
      = .int (if nv.truthy then 1 else 0) := by
    cases h : nv.truthy with
    | true =>
      unfold Val.pyAnd Val.pyOr
      rw [h]
      simp [Val.truthy]
    | false =>
      unfold Val.pyAnd Val.pyOr
      rw [h]
      simp [h]
  simp [Client.get_paths, get_paths_params, hnv]

/-- Claim C8, counterexample: a successful create-open response carrying
dev_count=0 produces an empty destination plan, and the selection dests[0]
raises IndexError, so the plan handed on is not always non-empty. -/
theorem new_file_dev_count_zero_empty_plan :
    (Client.new_file ⟨"d", false⟩ "k" none (.int 0) false
        (.ok [("fid", "1"), ("dev_count", "0")])).2 = .error .indexError := by
  decide

/-- Claim C10: new_file performs no read-only check: its request trace and
its whole outcome are independent of the readonly flag, and a readonly=True
client still issues the create_open request to the backend. -/
theorem new_file_ignores_readonly (domain key : String) (ro ro2 : Bool)
    (cls : Option String) (bytes : Val) (lf : Bool)
    (resp : Except PyErr FieldMap) :
    Client.new_file ⟨domain, ro⟩ key cls bytes lf resp
        = Client.new_file ⟨domain, ro2⟩ key cls bytes lf resp ∧
    (Client.new_file ⟨domain, true⟩ key cls bytes lf resp).1
        = [⟨"create_open", create_open_params ⟨domain, true⟩ key cls⟩] :=
  ⟨rfl, rfl⟩

/-- Claim C3: new_file builds the destination sequence by field presence
alone — when dev_count is absent, the single (devid, path) pair; when
dev_count is present, the dev_count pairs (devid_N, path_N) for N ascending
from 1 — and the first destination of the plan is the primary (devid, path)
passed to the write handle, with the whole plan as backup_dests. -/
theorem new_file_destination_plan (c : Client) (key : String)
    (cls : Option String) (bytes : Val) (lf : Bool) (res : FieldMap)
    (fid : String) (hfid : res.lookup "fid" = some fid) :
    (∀ d p, res.lookup "dev_count" = none → res.lookup "devid" = some d →
      res.lookup "path" = some p →
      (c.new_file key cls bytes lf (.ok res)).2 =
        .ok (some { fid := fid, path := p, devid := d, backup_dests := [(d, p)],
                    cls := cls, key := key, content_length := bytes,
                    largefile := lf, overwrite := 1 })) ∧
    (∀ dcs n (devs paths : Nat → String), res.lookup "dev_count" = some dcs →
      pyInt dcs = .ok n → 1 ≤ n →
      (∀ x ∈ pyRange1 n, res.lookup ("devid_" ++ toString x) = some (devs x)) →
      (∀ x ∈ pyRange1 n, res.lookup ("path_" ++ toString x) = some (paths x)) →
      (c.new_file key cls bytes lf (.ok res)).2 =
        .ok (some { fid := fid, path := paths 1, devid := devs 1,
                    backup_dests := (pyRange1 n).map (fun x => (devs x, paths x)),
                    cls := cls, key := key, content_length := bytes,
                    largefile := lf, overwrite := 1 })) := by
  have hres := lookup_ne_nil hfid
  constructor
  · intro d p h0 h1 h2
    have hd : parse_dests res = .ok [(d, p)] := by
      simp only [parse_dests, FieldMap.getE, h0, h1, h2]
    exact new_file_res_ok c key cls bytes lf res d p fid [] hres hd hfid
  · intro dcs n devs paths h0 hn h1 hdev hpath
    obtain ⟨t, ht⟩ : ∃ t, pyRange1 n = 1 :: t :=
      ⟨(pyRange1 n).tail, pyRange1_pos n h1⟩
    have hd0 := dest_pairs_ok res devs paths (pyRange1 n) hdev hpath
    rw [ht] at hd0
    simp only [List.map_cons] at hd0
    have hd : parse_dests res
        = .ok ((devs 1, paths 1) :: t.map (fun x => (devs x, paths x))) := by
      simp only [parse_dests, h0, hn]
      rw [ht]
      exact hd0
    rw [ht]
    simp only [List.map_cons]
    exact new_file_res_ok c key cls bytes lf res (devs 1) (paths 1) fid
      (t.map (fun x => (devs x, paths x))) hres hd hfid

/-- Claim C3, witness: the theorem applied to a concrete dev_count=2
response and a concrete legacy response. -/
theorem new_file_destination_plan_witness :
    ([("fid", "123"), ("dev_count", "2"), ("devid_1", "7"), ("path_1", "pa"),
      ("devid_2", "9"), ("path_2", "pb")] : FieldMap).lookup "dev_count"
        = some "2" ∧
    (Client.new_file ⟨"d", false⟩ "k" none (.int 0) false
        (.ok [("fid", "123"), ("dev_count", "2"), ("devid_1", "7"),
              ("path_1", "pa"), ("devid_2", "9"), ("path_2", "pb")])).2
      = .ok (some { fid := "123", path := "pa", devid := "7",
                    backup_dests := [("7", "pa"), ("9", "pb")], cls := none,
                    key := "k", content_length := .int 0, largefile := false,
                    overwrite := 1 }) ∧
    (Client.new_file ⟨"d", false⟩ "k" none (.int 0) false
        (.ok [("fid", "5"), ("devid", "3"), ("path", "pl")])).2
      = .ok (some { fid := "5", path := "pl", devid := "3",
                    backup_dests := [("3", "pl")], cls := none, key := "k",
                    content_length := .int 0, largefile := false,
                    overwrite := 1 }) := by
  refine ⟨by decide, ?_, ?_⟩
  · have h := (new_file_destination_plan ⟨"d", false⟩ "k" none (.int 0) false
        [("fid", "123"), ("dev_count", "2"), ("devid_1", "7"), ("path_1", "pa"),
         ("devid_2", "9"), ("path_2", "pb")] "123" (by decide)).2
        "2" 2 (fun x => if x = 1 then "7" else "9")
        (fun x => if x = 1 then "pa" else "pb")
        (by decide) (by decide) (by decide) (by decide) (by decide)
    rw [h]
    decide
  · have h := (new_file_destination_plan ⟨"d", false⟩ "k" none (.int 0) false
        [("fid", "5"), ("devid", "3"), ("path", "pl")] "5" (by decide)).1
        "3" "pl" (by decide) (by decide) (by decide)
    rw [h]

/-- Claim C7: a successful get_paths response with paths=N and the indexed
path fields present yields exactly [path1, ..., pathN] in ascending index
order, and read_file hands the first path to the handle as primary with the
remaining paths, in the same order, as (None, path) failover sources. -/
theorem get_paths_ordered_read_file_primary (c : Client) (key : String)
    (nv : Val) (zone : String) (pc : Val) (res : FieldMap) (ps : String)
    (n : Int) (pathF : Nat → String)
    (hps : res.lookup "paths" = some ps) (hn : pyInt ps = .ok n)
    (hp : ∀ x ∈ pyRange1 n, res.lookup ("path" ++ toString x) = some (pathF x)) :
    (c.get_paths key nv zone pc (.ok res)).2 = .ok ((pyRange1 n).map pathF) ∧
    (1 ≤ n →
      (c.read_file key nv zone pc (.ok res)).2 =
        .ok { path := pathF 1,
              backup_dests :=
                ((pyRange1 n).tail).map
                  (fun x => ((none : Option String), pathF x)),
              readonly := 1 }) := by
  have hgp := get_paths_res_ok c key nv zone pc res ps n pathF hps hn hp
  refine ⟨hgp, fun h1 => ?_⟩
  obtain ⟨t, ht⟩ : ∃ t, pyRange1 n = 1 :: t :=
    ⟨(pyRange1 n).tail, pyRange1_pos n h1⟩
  have htail : (pyRange1 n).tail = t := by rw [ht, List.tail_cons]
  rw [ht] at hgp
  simp only [List.map_cons] at hgp
  simp only [Client.read_file, hgp, htail, List.map_map]
  rfl

/-- Claim C7, witness: the theorem applied to a concrete paths=2 response. -/
theorem get_paths_ordered_read_file_primary_witness :
    ([("paths", "2"), ("path1", "u1"), ("path2", "u2")] : FieldMap).lookup
        "paths" = some "2" ∧
    (Client.get_paths ⟨"d", false⟩ "k" (.int 1) "alt" .pynone
        (.ok [("paths", "2"), ("path1", "u1"), ("path2", "u2")])).2
      = .ok ["u1", "u2"] ∧
    (Client.read_file ⟨"d", false⟩ "k" (.int 1) "alt" .pynone
        (.ok [("paths", "2"), ("path1", "u1"), ("path2", "u2")])).2
      = .ok { path := "u1", backup_dests := [(none, "u2")], readonly := 1 } := by
  have h := get_paths_ordered_read_file_primary ⟨"d", false⟩ "k" (.int 1)
    "alt" .pynone [("paths", "2"), ("path1", "u1"), ("path2", "u2")] "2" 2
    (fun x => if x = 1 then "u1" else "u2") (by decide) (by decide) (by decide)
  refine ⟨by decide, ?_, ?_⟩
  · rw [h.1]
    decide
  · rw [h.2 (by decide)]
    decide

/-- Claim C8 as amended: for a successful create-open response that lacks
dev_count, or whose dev_count parses to n with 1 ≤ n and carries the indexed
fields, the plan handed to the file handle is non-empty and the selection of
the first destination succeeds; with dev_count=0 the plan is empty and the
selection raises IndexError (see the counterexample). -/
theorem new_file_plan_nonempty (c : Client) (key : String)
    (cls : Option String) (bytes : Val) (lf : Bool) (res : FieldMap)
    (fid : String) (hfid : res.lookup "fid" = some fid) :
    (∀ d p, res.lookup "dev_count" = none → res.lookup "devid" = some d →
      res.lookup "path" = some p →
      ∃ args : WriteHandleArgs,
        (c.new_file key cls bytes lf (.ok res)).2 = .ok (some args) ∧
          args.backup_dests ≠ []) ∧
    (∀ dcs n (devs paths : Nat → String), res.lookup "dev_count" = some dcs →
      pyInt dcs = .ok n → 1 ≤ n →
      (∀ x ∈ pyRange1 n, res.lookup ("devid_" ++ toString x) = some (devs x)) →
      (∀ x ∈ pyRange1 n, res.lookup ("path_" ++ toString x) = some (paths x)) →
      ∃ args : WriteHandleArgs,
        (c.new_file key cls bytes lf (.ok res)).2 = .ok (some args) ∧
          args.backup_dests ≠ []) := by
  have hres := lookup_ne_nil hfid
  constructor
  · intro d p h0 h1 h2
    have hd : parse_dests res = .ok [(d, p)] := by
      simp only [parse_dests, FieldMap.getE, h0, h1, h2]
    exact ⟨_, new_file_res_ok c key cls bytes lf res d p fid [] hres hd hfid,
      by simp⟩
  · intro dcs n devs paths h0 hn h1 hdev hpath
    obtain ⟨t, ht⟩ : ∃ t, pyRange1 n = 1 :: t :=
      ⟨(pyRange1 n).tail, pyRange1_pos n h1⟩
    have hd0 := dest_pairs_ok res devs paths (pyRange1 n) hdev hpath
    rw [ht] at hd0
    simp only [List.map_cons] at hd0
    have hd : parse_dests res
        = .ok ((devs 1, paths 1) :: t.map (fun x => (devs x, paths x))) := by
      simp only [parse_dests, h0, hn]
      rw [ht]
      exact hd0
    exact ⟨_, new_file_res_ok c key cls bytes lf res (devs 1) (paths 1) fid
      (t.map (fun x => (devs x, paths x))) hres hd hfid, by simp⟩

/-- Claim C8, witness: the amended theorem applied to a concrete dev_count=1
response. -/
theorem new_file_plan_nonempty_witness :
    ([("fid", "9"), ("dev_count", "1"), ("devid_1", "4"),
      ("path_1", "pw")] : FieldMap).lookup "dev_count" = some "1" ∧
    (∃ args : Pymogile.WriteHandleArgs,
      (Client.new_file ⟨"d", false⟩ "k" none (.int 0) false
          (.ok [("fid", "9"), ("dev_count", "1"), ("devid_1", "4"),
                ("path_1", "pw")])).2 = .ok (some args) ∧
        args.backup_dests ≠ []) := by
  refine ⟨by decide, ?_⟩
  exact (new_file_plan_nonempty ⟨"d", false⟩ "k" none (.int 0) false
      [("fid", "9"), ("dev_count", "1"), ("devid_1", "4"), ("path_1", "pw")]
      "9" (by decide)).2
    "1" 1 (fun _ => "4") (fun _ => "pw")
    (by decide) (by decide) (by decide) (by decide) (by decide)

/-- Claim C4, counterexample: on a read-only client store_file raises before
the try block, so this exit path closes neither the input filehandle nor
anything else — no fpClose event occurs. -/
theorem store_file_readonly_exit_closes_nothing :
    Client.store_file ⟨"d", true⟩ "k" none ⟨.ok [], [], [], true⟩
        = ([], .error (.valueError "operation on read-only client")) ∧
    Ev.fpClose ∉ (Client.store_file ⟨"d", true⟩ "k" none ⟨.ok [], [], [], true⟩).1 :=
  ⟨rfl, by decide⟩

/-- Claim C4 as amended: for calls that pass the read-only check, every exit
path of store_file closes the input filehandle fp, and closes the write
handle whenever new_file produced one (on the other error paths no write
handle was acquired, though the finally block then raises from output.close);
and every exit path of get_file_data on which read_file produced a handle
closes that read handle. -/
theorem store_and_read_close_on_every_path (domain key key2 : String)
    (cls : Option String) (o : StoreOracle) (resp2 : Except PyErr FieldMap)
    (data : Except PyErr String) :
    Ev.fpClose ∈ (Client.store_file ⟨domain, false⟩ key cls o).1 ∧
    (∀ args : WriteHandleArgs,
      (Client.new_file ⟨domain, false⟩ key cls (.int 0) true o.resp).2
          = .ok (some args) →
      Ev.outClose o.closeRet ∈ (Client.store_file ⟨domain, false⟩ key cls o).1) ∧
    (∀ h : ReadHandleArgs,
      (Client.read_file ⟨domain, false⟩ key2 (.int 1) "alt" .pynone resp2).2
          = .ok h →
      Ev.readClose ∈ (Client.get_file_data ⟨domain, false⟩ key2 resp2 data).1) := by
  refine ⟨?_, ?_, ?_⟩
  · unfold Client.store_file
    simp only [complain_ifreadonly]
    cases hnf : (Client.new_file ⟨domain, false⟩ key cls (.int 0) true o.resp).2 with
    | error e => simp [hnf]
    | ok oo => cases oo <;> simp [hnf]
  · intro args hargs
    unfold Client.store_file
    simp only [complain_ifreadonly]
    simp [hargs]
  · intro h hh
    unfold Client.get_file_data
    simp [hh]

/-- Claim C4, witness: the amended theorem applied to a successful write and
a successful read on a non-read-only client. -/
theorem store_and_read_close_on_every_path_witness :
    Ev.fpClose ∈ (Client.store_file ⟨"d", false⟩ "k" none
        ⟨.ok [("fid", "1"), ("devid", "7"), ("path", "u")],
         [.ok 5], [.ok ()], true⟩).1 ∧
    Ev.outClose true ∈ (Client.store_file ⟨"d", false⟩ "k" none
        ⟨.ok [("fid", "1"), ("devid", "7"), ("path", "u")],
         [.ok 5], [.ok ()], true⟩).1 ∧
    Ev.readClose ∈ (Client.get_file_data ⟨"d", false⟩ "k2"
        (.ok [("paths", "1"), ("path1", "u1")]) (.ok "bytes")).1 := by
  have h := store_and_read_close_on_every_path "d" "k" "k2" none
    ⟨.ok [("fid", "1"), ("devid", "7"), ("path", "u")], [.ok 5], [.ok ()], true⟩
    (.ok [("paths", "1"), ("path1", "u1")]) (.ok "bytes")
  exact ⟨h.1,
    h.2.1 { fid := "1", path := "u", devid := "7", backup_dests := [("7", "u")],
            cls := none, key := "k", content_length := .int 0, largefile := true,
            overwrite := 1 } (by decide),
    h.2.2 { path := "u1", backup_dests := [], readonly := 1 } (by decide)⟩

/-- Claim C9: when new_file produced a write handle and streaming the input
succeeded, store_file returns the accumulated byte count and store_content
returns len(content), for either boolean that close() reports — output.close
has its result discarded by both. -/
theorem store_discards_close_result (domain key content : String)
    (cls cls2 : Option String) (o : StoreOracle) (co : ContentOracle)
    (b : Nat) (r : Bool) (args args2 : WriteHandleArgs)
    (h1 : (Client.new_file ⟨domain, false⟩ key cls (.int 0) true o.resp).2
            = .ok (some args))
    (h2 : (streamLoop true o.reads o.writes 0).2 = .ok b)
    (h3 : (Client.new_file ⟨domain, false⟩ key cls2 .pynone false co.resp).2
            = .ok (some args2))
    (h4 : co.writeRes = .ok ()) :
    (Client.store_file ⟨domain, false⟩ key cls
        ⟨o.resp, o.reads, o.writes, r⟩).2 = .ok b ∧
    (Client.store_content ⟨domain, false⟩ key content cls2
        ⟨co.resp, co.writeRes, r⟩).2 = .ok content.length := by
  constructor
  · unfold Client.store_file
    simp only [complain_ifreadonly]
    simp [h1, h2]
  · unfold Client.store_content
    simp only [complain_ifreadonly]
    simp [h3, h4]

/-- Claim C9, witness: both close results, applied to a concrete successful
store of 8 bytes and a concrete store_content of a 3-byte string. -/
theorem store_discards_close_result_witness :
    (Client.store_file ⟨"d", false⟩ "k" none
        ⟨.ok [("fid", "1"), ("devid", "7"), ("path", "u")],
         [.ok 5, .ok 3], [.ok (), .ok ()], true⟩).2 = .ok 8 ∧
    (Client.store_file ⟨"d", false⟩ "k" none
        ⟨.ok [("fid", "1"), ("devid", "7"), ("path", "u")],
         [.ok 5, .ok 3], [.ok (), .ok ()], false⟩).2 = .ok 8 ∧
    (Client.store_content ⟨"d", false⟩ "k" "abc" none
        ⟨.ok [("fid", "1"), ("devid", "7"), ("path", "u")], .ok (), true⟩).2
        = .ok 3 ∧
    (Client.store_content ⟨"d", false⟩ "k" "abc" none
        ⟨.ok [("fid", "1"), ("devid", "7"), ("path", "u")], .ok (), false⟩).2
        = .ok 3 := by
  have hwt := store_discards_close_result "d" "k" "abc" none none
    ⟨.ok [("fid", "1"), ("devid", "7"), ("path", "u")],
     [.ok 5, .ok 3], [.ok (), .ok ()], true⟩
    ⟨.ok [("fid", "1"), ("devid", "7"), ("path", "u")], .ok (), true⟩
    8 true
    { fid := "1", path := "u", devid := "7", backup_dests := [("7", "u")],
      cls := none, key := "k", content_length := .int 0, largefile := true,
      overwrite := 1 }
    { fid := "1", path := "u", devid := "7", backup_dests := [("7", "u")],
      cls := none, key := "k", content_length := .pynone, largefile := false,
      overwrite := 1 }
    (by decide) (by decide) (by decide) (by decide)
  have hwf := store_discards_close_result "d" "k" "abc" none none
    ⟨.ok [("fid", "1"), ("devid", "7"), ("path", "u")],
     [.ok 5, .ok 3], [.ok (), .ok ()], false⟩
    ⟨.ok [("fid", "1"), ("devid", "7"), ("path", "u")], .ok (), false⟩
    8 false
    { fid := "1", path := "u", devid := "7", backup_dests := [("7", "u")],
      cls := none, key := "k", content_length := .int 0, largefile := true,
      overwrite := 1 }
    { fid := "1", path := "u", devid := "7", backup_dests := [("7", "u")],
      cls := none, key := "k", content_length := .pynone, largefile := false,
      overwrite := 1 }
    (by decide) (by decide) (by decide) (by decide)
  exact ⟨hwt.1, hwf.1, hwt.2, hwf.2⟩

end Pymogile
